import Mathlib

/-!
Verification of the policy decision engine and the state-reconciliation /
notification loop of `vk_checker_v4.py`.

The Python code operates on JSON dictionaries.  The shallow embedding below
represents each dictionary by a structure whose fields are the keys the code
actually reads; a field of type `Option _` models a key that may be absent
(`dict.get` returning `None`).  `Option.getD` models `dict.get(k, default)`;
the helper `orD` models the Python idiom `(d.get(k) or default)`, which also
replaces an empty string by the default.  Python floats are modelled by `ℚ`
(the decisions under scrutiny are control-flow properties, not float-rounding
properties).  Stats tables keyed by `json.dumps(period)` are modelled by
total functions `Period → Nat → Stats` (a missing entry is the all-zero
record, exactly what `{} or {}` followed by `metric_value_from_stats` yields).
-/

/-- Models the Python idiom `(s or default)` for strings read from a dict:
`None` (here `none`) and the empty string are replaced by the default. -/
def orD (o : Option String) (d : String) : String :=
  match o with
  | none => d
  | some s => if s = "" then d else s

/-- Models `int(x or default)` for optional integers: absent and `0` both fall
back to the default (the Python `or` treats `0` as falsy). -/
def orDInt (o : Option Int) (d : Int) : Int :=
  match o with
  | none => d
  | some 0 => d
  | some k => k

/-- ASCII uppercase on strings, character by character (the policy strings
compared by the source are ASCII; implemented over the char list so that it
reduces inside the kernel, unlike `String.toUpper`). -/
def to_upper (s : String) : String := String.mk (s.data.map Char.toUpper)

/-- ASCII strip of leading/trailing whitespace, implemented over the char
list for kernel reducibility (models Python `str.strip()` on ASCII). -/
def to_trim (s : String) : String :=
  String.mk (((s.data.dropWhile Char.isWhitespace).reverse.dropWhile Char.isWhitespace).reverse)

/-- `op_compare(left, op, right)` from vk_checker_v4.py: the five recognized
operators; anything else compares to `False`.  `EQ` uses the 1e-9 tolerance. -/
def op_compare (l : ℚ) (op : String) (r : ℚ) : Bool :=
  let o := to_upper op
  if o = "LT" then decide (l < r)
  else if o = "LTE" then decide (l ≤ r)
  else if o = "EQ" then decide (|l - r| < 1 / 1000000000)
  else if o = "GTE" then decide (l ≥ r)
  else if o = "GT" then decide (l > r)
  else false

/-- A period descriptor (`{"type": ..., "n": ...}` in the JSON policy). -/
structure Period where
  ptype : Option String := none
  n : Option Int := none
deriving DecidableEq

/-- The explicit default period `{"type": "ALL_TIME"}` used throughout. -/
def period_all_time : Period := { ptype := some "ALL_TIME" }

/-- One raw per-banner statistics record (`spent`, `clicks`, `goals`, `cpc`,
`vk.cpa`); a banner missing from the stats table is the all-zero record. -/
structure Stats where
  spent : ℚ := 0
  clicks : ℚ := 0
  goals : ℚ := 0
  cpc : ℚ := 0
  vkCpa : ℚ := 0
deriving DecidableEq

/-- `click_cost` derivation in `metric_value_from_stats`: raw `cpc` if
positive, else `spent/clicks` when there are clicks, else 0. -/
def click_cost (s : Stats) : ℚ :=
  if s.cpc > 0 then s.cpc else if s.clicks > 0 then s.spent / s.clicks else 0

/-- `result_cost` derivation in `metric_value_from_stats`: raw `vk.cpa` if
positive, else `spent/goals` when there are goals, else 0. -/
def result_cost (s : Stats) : ℚ :=
  if s.vkCpa > 0 then s.vkCpa else if s.goals > 0 then s.spent / s.goals else 0

/-- `metric_value_from_stats(stats)[m]`: the seven recognized metric names;
`none` models `m not in mv`. -/
def metric_value_from_stats (s : Stats) (m : String) : Option ℚ :=
  if m = "SPENT" then some s.spent
  else if m = "CLICKS" then some s.clicks
  else if m = "RESULTS" then some s.goals
  else if m = "CLICK_COST" then some (click_cost s)
  else if m = "RESULT_COST" then some (result_cost s)
  else if m = "CPC" then some (click_cost s)
  else if m = "CPA" then some (result_cost s)
  else none

/-- The income store: a lifetime total and a day-indexed map, both keyed by
the banner id rendered as a string (days are abstract day numbers). -/
structure IncomeStore where
  total : String → ℚ
  byDay : Int → String → ℚ

/-- `IncomeStore.income_for_period`: lifetime total for `ALL_TIME`, single-day
lookups for `TODAY`/`YESTERDAY`, a `max 1 n`-day sum for `LAST_N_DAYS`, and
`0` for an unrecognized period type. -/
def income_for_period (inc : IncomeStore) (today : Int) (bid : Nat) (p : Period) : ℚ :=
  let pt := p.ptype.getD "ALL_TIME"
  if pt = "ALL_TIME" then inc.total (toString bid)
  else if pt = "TODAY" then inc.byDay today (toString bid)
  else if pt = "YESTERDAY" then inc.byDay (today - 1) (toString bid)
  else if pt = "LAST_N_DAYS" then
    let nn := max 1 (orDInt p.n 1)
    ((List.range nn.toNat).map (fun i => inc.byDay (today - i) (toString bid))).sum
  else 0

/-- The read-only metrics context handed to the evaluator: the per-period
stats cache, the income store, the group-objective lookup and today's day. -/
structure Ctx where
  stats : Period → Nat → Stats
  income : IncomeStore
  objectives : Int → String
  today : Int

/-- The part of the banner object the evaluator reads (`ad_group_id`). -/
structure BannerObj where
  adGroupId : Int := 0
deriving DecidableEq

/-- `objective_to_target_action`: the closed classification table; everything
unmapped classifies to `APP`. -/
def objective_to_target_action (objective : String) : String :=
  let obj := to_trim objective
  if obj = "socialengagement" then "BOT_MESSAGE"
  else if obj = "site_conversions" then "SITE"
  else if obj = "leadads" then "LEADFORM"
  else "APP"

/-- `banner_target_action_from_groups`: look up the group objective (missing
group yields the empty string) and classify it. -/
def banner_target_action_from_groups (gid : Int) (objectives : Int → String) : String :=
  objective_to_target_action (objectives gid)

/-- One condition dictionary; fields are the keys `eval_conditions` reads. -/
structure Cond where
  ctype : Option String := none
  period : Option Period := none
  op : Option String := none
  valueRub : Option ℚ := none
  value : Option ℚ := none
  mode : Option String := none
  multiplier : Option ℚ := none
  spendPeriod : Option Period := none
  target : Option String := none
deriving DecidableEq

/-- `eval_conditions`: conjunction over the list; `SPENT` compares the window
spend, `INCOME` dispatches on its mode, `TARGET_ACTION` compares the derived
classification (an empty target is skipped), and an unrecognized condition
type or unknown `INCOME` mode makes the whole conjunction `false`. -/
def eval_conditions : List Cond → Nat → BannerObj → Ctx → Bool
  | [], _, _, _ => true
  | c :: cs, bid, bobj, ctx =>
    let ct := to_upper (c.ctype.getD "")
    if ct = "SPENT" then
      let s := ctx.stats (c.period.getD period_all_time) bid
      if op_compare s.spent (c.op.getD "GTE") (c.valueRub.getD 0) then
        eval_conditions cs bid bobj ctx
      else false
    else if ct = "INCOME" then
      let income := income_for_period ctx.income ctx.today bid (c.period.getD period_all_time)
      let mode := to_upper (orD c.mode "HAS")
      if mode = "HAS" ∨ mode = "EXISTS" then
        if income ≤ 0 then false else eval_conditions cs bid bobj ctx
      else if mode = "HAS_NOT" ∨ mode = "NOT_HAS" ∨ mode = "NOT" ∨ mode = "NONE" ∨
              mode = "NO" ∨ mode = "EMPTY" ∨ mode = "ZERO" then
        if income > 0 then false else eval_conditions cs bid bobj ctx
      else if mode = "COMPARE" then
        let o := to_trim (to_upper (orD c.op ""))
        if o = "" then false
        else if op_compare income o (c.valueRub.getD (c.value.getD 0)) then
          eval_conditions cs bid bobj ctx
        else false
      else if mode = "COMPARE_SPEND" then
        let o := to_trim (to_upper (orD c.op ""))
        if o = "" then false
        else
          let spend := (ctx.stats (c.spendPeriod.getD period_all_time) bid).spent
          if op_compare (income - spend) o (c.multiplier.getD 0) then
            eval_conditions cs bid bobj ctx
          else false
      else false
    else if ct = "TARGET_ACTION" then
      let target := to_trim (c.target.getD "")
      if target = "" then eval_conditions cs bid bobj ctx
      else if banner_target_action_from_groups bobj.adGroupId ctx.objectives ≠ target then false
      else eval_conditions cs bid bobj ctx
    else false

/-- One cost-rule dictionary; fields are the keys `eval_cost_rule` reads. -/
structure CostRule where
  rtype : Option String := none
  spentRub : Option ℚ := none
  metric : Option String := none
  op : Option String := none
  value : Option ℚ := none
  valueRub : Option ℚ := none
  period : Option Period := none
deriving DecidableEq

/-- `eval_cost_rule` (decision component only; the human-readable reason
strings it also returns never influence any decision and are not modelled):
a non-`COST_RULE` type fails, the window spend must reach `spentRub`, the
metric must be recognized, and the metric comparison must hold. -/
def eval_cost_rule (r : CostRule) (bid : Nat) (ctx : Ctx) : Bool :=
  if to_upper (r.rtype.getD "") ≠ "COST_RULE" then false
  else
    let s := ctx.stats (r.period.getD period_all_time) bid
    if s.spent < r.spentRub.getD 0 then false
    else
      match metric_value_from_stats s (to_upper (r.metric.getD "")) with
      | none => false
      | some actual => op_compare actual (to_upper (orD r.op "EQ")) (r.value.getD (r.valueRub.getD 0))

/-- One `SET_STATE` action dictionary (`{"type": ..., "state": ...}`). -/
structure ActObj where
  atype : Option String := none
  state : Option String := none
deriving DecidableEq

/-- An `accountsScope` dictionary (`mode` plus the selected account ids;
the source accepts the list under `selected`/`accounts`/`ids`, taking the
first non-falsy one — modelled as the single resolved list). -/
structure Scope where
  mode : Option String := none
  selected : Option (List String) := none
deriving DecidableEq

/-- `accounts_scope_allows`: a missing/falsy scope allows everything, `ALL`
allows everything, `SELECTED` requires membership of the cabinet id, and an
unknown mode (or a non-list selection) denies. -/
def accounts_scope_allows (sc : Option Scope) (cab : String) : Bool :=
  match sc with
  | none => true
  | some s =>
    let m := to_upper (orD s.mode "ALL")
    if m = "ALL" then true
    else if m = "SELECTED" then
      match s.selected with
      | some l => l.contains cab
      | none => false
    else false

/-- A node of a template's filter chain (the recursive `FilterNode` dict):
type tag, mode, rules, optional condition gate, declared action, accounts
scope (read only on the root node) and the `child` fallback link.  The
`nil` constructor stands for a missing / falsy / non-dict child, so the
chain recursion is structural. -/
inductive FilterNode where
  | nil : FilterNode
  | mk : (ntype : Option String) → (mode : Option String) → (rules : List CostRule) →
         (conditions : List Cond) → (action : Option ActObj) → (scope : Option Scope) →
         (child : FilterNode) → FilterNode

/-- The `type` field of a node (a missing node has no fields). -/
def ntypeOf : FilterNode → Option String
  | .nil => none
  | .mk nt _ _ _ _ _ _ => nt

/-- The `mode` field of a node. -/
def modeOf : FilterNode → Option String
  | .nil => none
  | .mk _ mo _ _ _ _ _ => mo

/-- The `rules` list of a node (`node.get("rules") or []`, non-lists
normalized to `[]`). -/
def rulesOf : FilterNode → List CostRule
  | .nil => []
  | .mk _ _ rs _ _ _ _ => rs

/-- The `conditions` list of a node. -/
def condsOf : FilterNode → List Cond
  | .nil => []
  | .mk _ _ _ cs _ _ _ => cs

/-- The `action` field of a node. -/
def actionOf : FilterNode → Option ActObj
  | .nil => none
  | .mk _ _ _ _ ac _ _ => ac

/-- The `accountsScope` field of a node. -/
def scopeOf : FilterNode → Option Scope
  | .nil => none
  | .mk _ _ _ _ _ sc _ => sc

/-- The `child` link of a node. -/
def childOf : FilterNode → FilterNode
  | .nil => .nil
  | .mk _ _ _ _ _ _ ch => ch

/-- The `result_cost_value_ok` pre-pass of `eval_filter_node`: true when some
`COST_RULE` with metric `RESULT_COST`/`CPA` has results (`goals > 0`) in its
window and its metric comparison alone succeeds (the `spentRub` gate is
deliberately ignored here). -/
def result_cost_value_ok : List CostRule → Nat → Ctx → Bool
  | [], _, _ => false
  | r :: rest, bid, ctx =>
    if to_upper (r.rtype.getD "") = "COST_RULE" ∧
       (to_upper (r.metric.getD "") = "RESULT_COST" ∨ to_upper (r.metric.getD "") = "CPA") then
      let s := ctx.stats (r.period.getD period_all_time) bid
      if s.goals > 0 ∧
         op_compare (result_cost s) (to_upper (orD r.op "EQ"))
           (r.value.getD (r.valueRub.getD 0)) = true then true
      else result_cost_value_ok rest bid ctx
    else result_cost_value_ok rest bid ctx

/-- `eval_filter_node` (decision component; reason strings not modelled).
`nil` stands for a missing / non-dict node.  A non-`FILTER` node defers to
its child; a failing condition gate defers to the child; rules are evaluated
under the mode with the `RESULT_COST`-over-`CLICK_COST` shortcut; an empty
`rules` list never matches; on a match a valid `SET_STATE` action is returned
with the matched flag, otherwise evaluation falls through to the child. -/
def eval_filter_node : FilterNode → Nat → BannerObj → Ctx → String × Bool
  | .nil, _, _, _ => ("NOOP", false)
  | .mk nt mo rs cs ac _sc ch, bid, bobj, ctx =>
    if to_upper (nt.getD "") ≠ "FILTER" then
      eval_filter_node ch bid bobj ctx
    else if cs ≠ [] ∧ eval_conditions cs bid bobj ctx = false then
      eval_filter_node ch bid bobj ctx
    else
      let rcOk := result_cost_value_ok rs bid ctx
      let hits := rs.map (fun r =>
        if to_upper (r.rtype.getD "") = "COST_RULE" then
          if rcOk ∧ (to_upper (r.metric.getD "") = "CLICK_COST" ∨
                     to_upper (r.metric.getD "") = "CPC") then true
          else eval_cost_rule r bid ctx
        else false)
      let matched := if hits = [] then false
        else if to_upper (orD mo "ALL") = "ANY" then hits.any id
        else hits.all id
      if matched then
        match ac with
        | some a =>
          if to_upper (a.atype.getD "") = "SET_STATE" then
            let stt := to_upper (orD a.state "NOOP")
            if stt = "DISABLE" ∨ stt = "ENABLE" ∨ stt = "NOOP" then (stt, true)
            else ("NOOP", false)
          else ("NOOP", false)
        | none => ("NOOP", false)
      else eval_filter_node ch bid bobj ctx

/-- One policy template (`priority` plus the `root` node). -/
structure Template where
  priority : Option Int := none
  root : Option FilterNode := none

/-- The sort key used on templates: `int(x.get("priority", 9999) or 9999)`
(note that a priority of `0` is falsy in Python and becomes `9999`). -/
def template_key (t : Template) : Int := orDInt t.priority 9999

/-- Stable insertion of `x` into `l`: `x` goes before the first element whose
key is not smaller, so earlier elements precede later equal-key ones. -/
def ins_by {α : Type} (key : α → Int) (x : α) : List α → List α
  | [] => [x]
  | y :: ys => if key y < key x then y :: ins_by key x ys else x :: y :: ys

/-- Stable insertion sort by an integer key, modelling Python's stable
`sorted(..., key=...)`. -/
def sort_by {α : Type} (key : α → Int) : List α → List α
  | [] => []
  | x :: xs => ins_by key x (sort_by key xs)

/-- The per-template body of `decide_action_for_banner`: skip when the scope
excludes the cabinet or a non-empty root condition list fails; with passed
root conditions and an empty-rules `FILTER` head carrying a valid `SET_STATE`
action, return that state directly; otherwise walk the chain and, when a node
consciously matched, return its (validated) state.  `none` = no decision. -/
def eval_template (t : Template) (cab : String) (bid : Nat) (bobj : BannerObj) (ctx : Ctx) :
    Option String :=
  match t.root with
  | none => none
  | some root =>
    if accounts_scope_allows (scopeOf root) cab = false then none
    else if condsOf root ≠ [] ∧ eval_conditions (condsOf root) bid bobj ctx = false then none
    else
      let c := childOf root
      let direct : Option String :=
        if condsOf root ≠ [] ∧ to_upper ((ntypeOf c).getD "") = "FILTER" ∧ rulesOf c = [] then
          match actionOf c with
          | some a =>
            if to_upper (a.atype.getD "") = "SET_STATE" then
              let ds := to_upper (orD a.state "NOOP")
              if ds = "DISABLE" ∨ ds = "ENABLE" ∨ ds = "NOOP" then some ds else none
            else none
          | none => none
        else none
      match direct with
      | some s => some s
      | none =>
        let res := eval_filter_node c bid bobj ctx
        if res.2 then
          some (if to_upper res.1 = "NOOP" then "NOOP"
                else if to_upper res.1 = "DISABLE" ∨ to_upper res.1 = "ENABLE" then to_upper res.1
                else "NOOP")
        else none

/-- The template consultation loop of `decide_action_for_banner` over an
already-sorted list: the first template that yields a decision (including an
explicit `NOOP`) is terminal; exhaustion defaults to `NOOP`. -/
def decide_list : List Template → String → Nat → BannerObj → Ctx → String
  | [], _, _, _, _ => "NOOP"
  | t :: rest, cab, bid, bobj, ctx =>
    match eval_template t cab bid bobj ctx with
    | some s => s
    | none => decide_list rest cab bid bobj ctx

/-- `decide_action_for_banner` (decision component): sort the templates
stably by priority ascending, then consult them in order. -/
def decide_action_for_banner (tpls : List Template) (cab : String) (bid : Nat)
    (bobj : BannerObj) (ctx : Ctx) : String :=
  decide_list (sort_by template_key tpls) cab bid bobj ctx

/-- A decision record as persisted to the ledgers and history.  Only the
fields the control flow reads back are modelled: the banner id key, the final
state (`"off"`/`"on"`), and the record time as the already-parsed UTC value
(`make_banner_record` stores `now_str()` in UTC+4 and
`parse_history_daytime_to_utc` recovers the UTC instant; an unparseable or
empty `daytime` is `none`).  Name, url, reason and metric texts never
influence a decision and are not modelled. -/
structure BannerRecord where
  idBanner : String
  status : String
  timeUtc : Option Int
deriving DecidableEq

/-- Key membership in a ledger (a Python dict keyed by `id_banner`). -/
def memK {β : Type} (k : String) (l : List (String × β)) : Bool :=
  l.any (fun p => p.1 == k)

/-- `d[k] = v` on a dict modelled as an association list: replace in place if
the key exists (Python dicts keep the original position), else append. -/
def setK {β : Type} (k : String) (v : β) : List (String × β) → List (String × β)
  | [] => [(k, v)]
  | p :: rest => if p.1 == k then (k, v) :: rest else p :: setK k v rest

/-- `d.pop(k, None)` on a dict modelled as an association list (dict keys are
unique, so dropping every pair with the key is the same removal). -/
def delK {β : Type} (k : String) (l : List (String × β)) : List (String × β) :=
  l.filter (fun p => p.1 ≠ k)

/-- The per-cabinet mutable state threaded through one `process_cabinet` run:
the two ledgers, the append-only history, the disable counter and the log of
platform actions invoked (`(kind, banner id)`). -/
structure CabState where
  disabled : List (String × BannerRecord)
  enabled : List (String × BannerRecord)
  history : List BannerRecord
  count : Int
  actions : List (String × Nat)
deriving DecidableEq

/-- All inputs of one `process_cabinet` run that the modelled control flow
reads: the decision inputs, the eligibility configuration, the run cap, the
outcome of the external disable/enable calls, and the notification settings.
External collaborators (the VK API, the clock) appear as function-valued
fields. -/
structure RunCfg where
  cab : String
  templates : List Template
  ctx : Ctx
  bobjOf : Nat → BannerObj
  ignoreManual : Bool
  whitelist : Option (List Nat)
  blacklist : List Nat
  onlySpent5000 : Bool
  effectiveMax : Int
  disableOk : Nat → Bool
  enableOk : Nat → Bool
  nowUtc : Int
  tgEnabled : Bool
  hasToken : Bool
  hasChat : Bool
  everyMin : Option Int

/-- `effective_max_disables`: with `limit_disabled_banners_20` set the run cap
is `min(max_disables, 20)`; without it the source substitutes `10**9`
(practically unlimited). -/
def effective_max_disables (limitFlag : Bool) (maxDisables : Int) : Int :=
  if limitFlag then min maxDisables 20 else 10 ^ 9

/-- The whitelist resolution of `process_cabinet`: `none` when no allow-list
is configured; campaign ids resolve (via the platform) to banner ids, and
directly listed banner ids are added. -/
def resolve_whitelist (campaignIds resolvedFromCampaigns directIds : List Nat) :
    Option (List Nat) :=
  let w1 : Option (List Nat) := if campaignIds ≠ [] then some resolvedFromCampaigns else none
  if directIds ≠ [] then some (w1.getD [] ++ directIds) else w1

/-- `spent_all_time` for the `only_spent_all_time_lte_5000` gate. -/
def spent_all_time (cfg : RunCfg) (bid : Nat) : ℚ :=
  (cfg.ctx.stats period_all_time bid).spent

/-- The decision for one banner inside the run (the call to
`decide_action_for_banner` with the run's fixed context). -/
def decide_for (cfg : RunCfg) (bid : Nat) : String :=
  decide_action_for_banner cfg.templates cfg.cab bid (cfg.bobjOf bid) cfg.ctx

/-- The white-list / black-list / spend-gate skips shared by both loops. -/
def skip_filters (cfg : RunCfg) (bid : Nat) : Bool :=
  (match cfg.whitelist with
   | some wl => !(wl.contains bid)
   | none => false)
  || cfg.blacklist.contains bid
  || (cfg.onlySpent5000 && decide (spent_all_time cfg bid > 5000))

/-- The record `make_banner_record` builds during this run. -/
def mk_record (cfg : RunCfg) (bid : Nat) (status : String) : BannerRecord :=
  { idBanner := toString bid, status := status, timeUtc := some cfg.nowUtc }

/-- Append the invocation of an external platform action to the action log. -/
def log_action (kind : String) (bid : Nat) (st : CabState) : CabState :=
  { st with actions := st.actions ++ [(kind, bid)] }

/-- A successful disable: bump the counter, upsert the `off` record into the
suppressed ledger, drop the banner from the restored ledger, append to
history. -/
def apply_disable (cfg : RunCfg) (bid : Nat) (st : CabState) : CabState :=
  let r0 := mk_record cfg bid "off"
  { st with
    count := st.count + 1,
    disabled := setK (toString bid) r0 st.disabled,
    enabled := delK (toString bid) st.enabled,
    history := st.history ++ [r0] }

/-- A successful enable: drop the banner from the suppressed ledger, upsert
the `on` record into the restored ledger, append to history. -/
def apply_enable (cfg : RunCfg) (bid : Nat) (st : CabState) : CabState :=
  let r0 := mk_record cfg bid "on"
  { st with
    disabled := delK (toString bid) st.disabled,
    enabled := setK (toString bid) r0 st.enabled,
    history := st.history ++ [r0] }

/-- The DISABLE pass of `process_cabinet` over the active banners: the
manual-override bypass and eligibility skips, the decision, the run-cap
check (`break` stops the whole pass), the external call, and on success the
ledger transition. -/
def disable_loop (cfg : RunCfg) : List Nat → CabState → CabState
  | [], st => st
  | bid :: rest, st =>
    if cfg.ignoreManual && memK (toString bid) st.disabled then disable_loop cfg rest st
    else if skip_filters cfg bid then disable_loop cfg rest st
    else if decide_for cfg bid ≠ "DISABLE" then disable_loop cfg rest st
    else if st.count ≥ cfg.effectiveMax then st
    else if cfg.disableOk bid then
      disable_loop cfg rest (apply_disable cfg bid (log_action "disable" bid st))
    else disable_loop cfg rest (log_action "disable" bid st)

/-- The ENABLE pass of `process_cabinet` over the blocked banners: only
banners present in the suppressed ledger are reversal candidates; then the
eligibility skips, the decision, the external call, and on success the
ledger transition. -/
def enable_loop (cfg : RunCfg) : List Nat → CabState → CabState
  | [], st => st
  | bid :: rest, st =>
    if !(memK (toString bid) st.disabled) then enable_loop cfg rest st
    else if skip_filters cfg bid then enable_loop cfg rest st
    else if decide_for cfg bid ≠ "ENABLE" then enable_loop cfg rest st
    else if cfg.enableOk bid then
      enable_loop cfg rest (apply_enable cfg bid (log_action "enable" bid st))
    else enable_loop cfg rest (log_action "enable" bid st)

/-- `is_due_to_send`: a missing or non-positive interval is always due; no
previous send is due; a last-sent more than one minute in the future is due;
otherwise the elapsed seconds must reach the interval. -/
def is_due_to_send (lastNotifyUtc : Option Int) (everyMin : Option Int) (nowUtc : Int) : Bool :=
  match everyMin with
  | none => true
  | some m =>
    if m ≤ 0 then true
    else
      match lastNotifyUtc with
      | none => true
      | some l =>
        if l > nowUtc + 60 then true
        else decide (nowUtc - l ≥ m * 60)

/-- `read_history_events_since`: keep the entries with a parseable time that
is strictly newer than the last send (everything when never sent). -/
def read_history_events_since (hist : List BannerRecord) (sinceUtc : Option Int) :
    List BannerRecord :=
  hist.filter (fun e =>
    match e.timeUtc with
    | none => false
    | some t =>
      match sinceUtc with
      | none => true
      | some s0 => decide (t > s0))

/-- The sort key `event_utc` of `reduce_latest_per_banner` (unparseable
times count as 0). -/
def event_key (e : BannerRecord) : Int := e.timeUtc.getD 0

/-- `reduce_latest_per_banner`: keep the last event per banner id (skipping
empty ids), then sort the surviving events by their time, stably. -/
def reduce_latest_per_banner (events : List BannerRecord) : List BannerRecord :=
  let last := events.foldl
    (fun m e => if e.idBanner ≠ "" then setK e.idBanner e m else m)
    ([] : List (String × BannerRecord))
  sort_by event_key (last.map Prod.snd)

/-- The notification tail of `process_cabinet`: when notifications are wired
up and due, collect and deduplicate the history window; a non-empty digest is
dispatched and the last-sent timestamp becomes now; an empty window sends
nothing and leaves the timestamp untouched.  Returns the new last-sent value
and whether a digest was dispatched. -/
def notify_phase (cfg : RunCfg) (hist : List BannerRecord) (lastNotifyUtc : Option Int) :
    Option Int × Bool :=
  if cfg.tgEnabled && cfg.hasToken && cfg.hasChat then
    if is_due_to_send lastNotifyUtc cfg.everyMin cfg.nowUtc then
      if reduce_latest_per_banner (read_history_events_since hist lastNotifyUtc) = [] then
        (lastNotifyUtc, false)
      else (some cfg.nowUtc, true)
    else (lastNotifyUtc, false)
  else (lastNotifyUtc, false)

/-- `process_cabinet` (the modelled control flow after the data is fetched):
an allow-list that resolved to the empty set makes the whole run a no-op;
otherwise the DISABLE pass, then the ENABLE pass, then the notification
tail.  Returns the final cabinet state, the new last-notify timestamp, and
whether a digest was dispatched. -/
def process_cabinet (cfg : RunCfg) (activeIds blockedIds : List Nat) (st0 : CabState)
    (lastNotifyUtc : Option Int) : CabState × Option Int × Bool :=
  if cfg.whitelist = some [] then (st0, lastNotifyUtc, false)
  else
    let st1 := disable_loop cfg activeIds st0
    let st2 := enable_loop cfg blockedIds st1
    let nres := notify_phase cfg st2.history lastNotifyUtc
    (st2, nres.1, nres.2)

/-- The all-zero statistics record. -/
def stats0 : Stats := {}

/-- An income store with no revenue at all. -/
def inc0 : IncomeStore := { total := fun _ => 0, byDay := fun _ _ => 0 }

/-- A metrics context with all-zero stats, no income and no objectives. -/
def ctx0 : Ctx := { stats := fun _ _ => stats0, income := inc0, objectives := fun _ => "", today := 0 }

/-- A banner object with group id 0. -/
def bobj0 : BannerObj := {}

/-- A root condition `SPENT ≥ 0` that trivially passes on zero stats. -/
def cond_pass : Cond := { ctype := some "SPENT", op := some "GTE", valueRub := some 0 }

/-- A chain head node with an EMPTY rule list and a declared DISABLE action. -/
def c1_chain_head : FilterNode :=
  .mk (some "FILTER") none [] []
    (some { atype := some "SET_STATE", state := some "DISABLE" }) none .nil

/-- A root whose conditions pass and whose child is the empty-rules head. -/
def c1_root : FilterNode :=
  .mk (some "ROOT") none [] [cond_pass] none none c1_chain_head

/-- A template wrapping `c1_root`. -/
def c1_template : Template := { priority := some 1, root := some c1_root }

/-- A cost rule `SPENT ≥ 0` with no spend gate, satisfied by zero stats. -/
def rule_pass : CostRule :=
  { rtype := some "COST_RULE", metric := some "SPENT", op := some "GTE", value := some 0 }

/-- A root condition `SPENT ≥ 10` that fails on zero stats. -/
def cond_fail10 : Cond := { ctype := some "SPENT", op := some "GTE", valueRub := some 10 }

/-- Priority-1 template whose root conditions fail on `ctx0`. -/
def c2_t1 : Template :=
  { priority := some 1, root := some (.mk (some "ROOT") none [] [cond_fail10] none none .nil) }

/-- Priority-2 template whose chain head matches with an explicit NOOP. -/
def c2_t2 : Template :=
  { priority := some 2,
    root := some (.mk (some "ROOT") none [] [] none none
      (.mk (some "FILTER") none [rule_pass] []
        (some { atype := some "SET_STATE", state := some "NOOP" }) none .nil)) }

/-- Priority-3 template that would decide DISABLE if it were consulted. -/
def c2_t3 : Template :=
  { priority := some 3,
    root := some (.mk (some "ROOT") none [] [] none none
      (.mk (some "FILTER") none [rule_pass] []
        (some { atype := some "SET_STATE", state := some "DISABLE" }) none .nil)) }

/-- A context whose every window shows spend 350, 10 clicks, 1 conversion,
raw click cost 35 and raw conversion cost 350. -/
def ctx3 : Ctx :=
  { stats := fun _ _ => { spent := 350, clicks := 10, goals := 1, cpc := 35, vkCpa := 350 },
    income := inc0, objectives := fun _ => "", today := 0 }

/-- A conversion-cost rule: spend gate 300, `RESULT_COST ≤ 400` — fully
satisfied on `ctx3` with conversions present. -/
def conv3 : CostRule :=
  { rtype := some "COST_RULE", spentRub := some 300, metric := some "RESULT_COST",
    op := some "LTE", value := some 400 }

/-- A click-cost rule that fails on its own (spend gate 1000000). -/
def click3 : CostRule :=
  { rtype := some "COST_RULE", spentRub := some 1000000, metric := some "CLICK_COST",
    op := some "LTE", value := some 1 }

/-- A condition with an unrecognized type tag. -/
def cond_unknown : Cond := { ctype := some "FROBNICATE" }

/-- An income condition with an unknown mode. -/
def cond_badmode : Cond := { ctype := some "INCOME", mode := some "MAYBE" }

/-- A rule whose type tag is not `COST_RULE`. -/
def rule_badtype : CostRule := { rtype := some "RULE_X" }

/-- A cost rule with an unrecognized metric name. -/
def rule_badmetric : CostRule := { rtype := some "COST_RULE", metric := some "IMPRESSIONS" }

/-- The spec scenario's cost rule: `minSpend=300`, conversion cost `≥ 300`. -/
def rule5 : CostRule :=
  { rtype := some "COST_RULE", spentRub := some 300, metric := some "RESULT_COST",
    op := some "GTE", value := some 300 }

/-- The spec scenario's snapshot: spend 350, one conversion, conversion cost
350 in every window. -/
def ctx5 : Ctx :=
  { stats := fun _ _ => { spent := 350, clicks := 0, goals := 1, cpc := 0, vkCpa := 350 },
    income := inc0, objectives := fun _ => "", today := 0 }

/-- The exclusivity invariant: no banner id is in both ledgers at once. -/
def excl (st : CabState) : Prop :=
  ∀ k, ¬(memK k st.disabled = true ∧ memK k st.enabled = true)

/-- A ledger record for banner 1 (suppressed earlier). -/
def rec1 : BannerRecord := { idBanner := "1", status := "off", timeUtc := some 0 }

/-- A ledger record for banner 2 (restored earlier). -/
def rec2 : BannerRecord := { idBanner := "2", status := "on", timeUtc := some 0 }

/-- A cabinet state whose ledgers hold banner 1 (suppressed) and banner 2
(restored), exclusively. -/
def st6 : CabState :=
  { disabled := [("1", rec1)], enabled := [("2", rec2)], history := [], count := 0,
    actions := [] }

/-- A run configuration that decides DISABLE for every banner (via `c2_t3`),
with all eligibility gates open and a cap of 5. -/
def cfg6 : RunCfg :=
  { cab := "c", templates := [c2_t3], ctx := ctx0, bobjOf := fun _ => bobj0,
    ignoreManual := false, whitelist := none, blacklist := [], onlySpent5000 := false,
    effectiveMax := 5, disableOk := fun _ => true, enableOk := fun _ => true,
    nowUtc := 100, tgEnabled := false, hasToken := false, hasChat := false,
    everyMin := none }

/-- The empty cabinet state. -/
def st_empty : CabState :=
  { disabled := [], enabled := [], history := [], count := 0, actions := [] }

/-- `cfg6` with the run cap lowered to 2. -/
def cfg7 : RunCfg :=
  { cab := "c", templates := [c2_t3], ctx := ctx0, bobjOf := fun _ => bobj0,
    ignoreManual := false, whitelist := none, blacklist := [], onlySpent5000 := false,
    effectiveMax := 2, disableOk := fun _ => true, enableOk := fun _ => true,
    nowUtc := 100, tgEnabled := false, hasToken := false, hasChat := false,
    everyMin := none }

/-- A history record whose event time (UTC) is 10. -/
def rec9 : BannerRecord := { idBanner := "4", status := "off", timeUtc := some 10 }

theorem mem_ins_by {α : Type} (key : α → Int) (x a : α) (l : List α) :
    a ∈ ins_by key x l ↔ a = x ∨ a ∈ l := by
  induction l with
  | nil => simp [ins_by]
  | cons y ys ih =>
    rw [ins_by]
    split
    · simp only [List.mem_cons, ih]
      tauto
    · simp only [List.mem_cons]

theorem pairwise_ins_by {α : Type} (key : α → Int) (x : α) (l : List α)
    (h : l.Pairwise (fun a b => key a ≤ key b)) :
    (ins_by key x l).Pairwise (fun a b => key a ≤ key b) := by
  induction l with
  | nil => simp [ins_by]
  | cons y ys ih =>
    rw [List.pairwise_cons] at h
    obtain ⟨hy, hys⟩ := h
    rw [ins_by]
    by_cases hk : key y < key x
    · rw [if_pos hk, List.pairwise_cons]
      refine ⟨?_, ih hys⟩
      intro a ha
      rcases (mem_ins_by key x a ys).mp ha with h1 | h2
      · subst h1; omega
      · exact hy a h2
    · rw [if_neg hk, List.pairwise_cons]
      refine ⟨?_, List.pairwise_cons.mpr ⟨hy, hys⟩⟩
      intro a ha
      rcases List.mem_cons.mp ha with h1 | h2
      · subst h1; omega
      · have := hy a h2; omega

theorem sort_by_pairwise {α : Type} (key : α → Int) (l : List α) :
    (sort_by key l).Pairwise (fun a b => key a ≤ key b) := by
  induction l with
  | nil => simp [sort_by]
  | cons x xs ih =>
    rw [sort_by]
    exact pairwise_ins_by key x _ ih

theorem filter_ins_by {α : Type} (key : α → Int) (x : α) (l : List α) (p : Int) :
    (ins_by key x l).filter (fun t => key t = p) =
      if key x = p then x :: l.filter (fun t => key t = p)
      else l.filter (fun t => key t = p) := by
  induction l with
  | nil =>
    by_cases hx : key x = p <;> simp [ins_by, hx]
  | cons y ys ih =>
    rw [ins_by]
    by_cases hk : key y < key x
    · rw [if_pos hk, List.filter_cons, ih]
      by_cases hx : key x = p
      · have hy : ¬(key y = p) := by omega
        simp [hx, hy]
      · by_cases hy : key y = p <;> simp [hx, hy]
    · rw [if_neg hk, List.filter_cons]
      by_cases hx : key x = p <;> simp [hx]

theorem filter_sort_by {α : Type} (key : α → Int) (l : List α) (p : Int) :
    (sort_by key l).filter (fun t => key t = p) = l.filter (fun t => key t = p) := by
  induction l with
  | nil => rfl
  | cons x xs ih =>
    rw [sort_by, filter_ins_by, List.filter_cons]
    by_cases hx : key x = p <;> simp [hx, ih]

theorem memK_setK_imp {β : Type} (x k : String) (v : β) (l : List (String × β))
    (h : memK x (setK k v l) = true) : x = k ∨ memK x l = true := by
  induction l with
  | nil =>
    left
    simp only [memK, setK, List.any_cons, List.any_nil, Bool.or_false] at h
    exact (by simpa using h : k = x).symm
  | cons p rest ih =>
    rw [setK] at h
    by_cases hp : p.1 == k
    · rw [if_pos hp] at h
      simp only [memK, List.any_cons, Bool.or_eq_true] at h ⊢
      rcases h with h1 | h2
      · left; exact (by simpa using h1 : k = x).symm
      · right; right; exact h2
    · rw [if_neg hp] at h
      simp only [memK, List.any_cons, Bool.or_eq_true] at h ⊢
      rcases h with h1 | h2
      · right; left; exact h1
      · rcases ih h2 with h3 | h4
        · left; exact h3
        · right; right; exact h4

theorem memK_delK_imp {β : Type} (x k : String) (l : List (String × β))
    (h : memK x (delK k l) = true) : x ≠ k ∧ memK x l = true := by
  simp only [memK, delK, List.any_eq_true] at h
  obtain ⟨p, hp, hx⟩ := h
  rw [List.mem_filter] at hp
  obtain ⟨hpl, hpk⟩ := hp
  have hx1 : p.1 = x := by simpa using hx
  have hpk1 : p.1 ≠ k := by simpa using hpk
  refine ⟨by rw [← hx1]; exact hpk1, ?_⟩
  simp only [memK, List.any_eq_true]
  exact ⟨p, hpl, hx⟩

/-- C1 counterexample: the chain head of `c1_template` has an empty rule
list, yet `decide_action_for_banner` returns the terminal decision `DISABLE`
for it — the direct-action path of the source (lines 1199-1216) fires when
the root conditions are non-empty, pass, and the empty-rules FILTER head
carries a valid `SET_STATE` action.  This refutes the claim that an
empty-rules node never produces a terminal decision. -/
theorem c1_counterexample :
    rulesOf c1_chain_head = [] ∧
    decide_action_for_banner [c1_template] "1" 7 bobj0 ctx0 = "DISABLE" := by
  constructor
  · rfl
  · decide

/-- C1 (amended): inside `eval_filter_node` a node with an empty rule list
never matches by itself — regardless of its mode, conditions and declared
action, its evaluation is exactly the evaluation of its child chain (and
hence `(NOOP, no-match)` when there is no child).  The original claim's
further assertion that an empty-rules node can never produce a terminal
decision is refuted by `c1_counterexample` via the direct-action path of
`decide_action_for_banner`. -/
theorem c1_empty_rules_never_match (n : FilterNode) (bid : Nat) (bobj : BannerObj)
    (ctx : Ctx) (h : rulesOf n = []) :
    eval_filter_node n bid bobj ctx = eval_filter_node (childOf n) bid bobj ctx := by
  cases n with
  | nil => rfl
  | mk nt mo rs cs ac sc ch =>
    simp only [rulesOf] at h
    subst h
    simp only [eval_filter_node, childOf]
    split
    · rfl
    · split
      · rfl
      · simp

/-- Witness for C1: a concrete empty-rules node with mode `ANY`, no child and
a declared `DISABLE` action evaluates to no match at all. -/
theorem c1_witness :
    rulesOf (FilterNode.mk (some "FILTER") (some "ANY") [] []
        (some { atype := some "SET_STATE", state := some "DISABLE" }) none .nil) = [] ∧
    eval_filter_node (FilterNode.mk (some "FILTER") (some "ANY") [] []
        (some { atype := some "SET_STATE", state := some "DISABLE" }) none .nil)
      3 bobj0 ctx0 = ("NOOP", false) := by
  constructor
  · rfl
  · rw [c1_empty_rules_never_match (FilterNode.mk (some "FILTER") (some "ANY") [] []
        (some { atype := some "SET_STATE", state := some "DISABLE" }) none .nil)
        3 bobj0 ctx0 rfl]
    rfl

/-- C2: `decide_action_for_banner` consults the templates in ascending
priority order — it is the consultation loop run on the stably sorted list:
the sorted list is ordered by the priority key, templates of any one priority
keep their original relative order, the first template whose chain yields a
matched action (including an explicit `NOOP`) is terminal and its state is
the final decision, and a template yielding no decision is skipped. -/
theorem c2_priority_order_first_match_terminal (tpls : List Template) (cab : String)
    (bid : Nat) (bobj : BannerObj) (ctx : Ctx) :
    decide_action_for_banner tpls cab bid bobj ctx
        = decide_list (sort_by template_key tpls) cab bid bobj ctx
    ∧ (sort_by template_key tpls).Pairwise (fun a b => template_key a ≤ template_key b)
    ∧ (∀ p : Int, (sort_by template_key tpls).filter (fun t => template_key t = p)
        = tpls.filter (fun t => template_key t = p))
    ∧ (∀ t rest s, eval_template t cab bid bobj ctx = some s →
        decide_list (t :: rest) cab bid bobj ctx = s)
    ∧ (∀ t rest, eval_template t cab bid bobj ctx = none →
        decide_list (t :: rest) cab bid bobj ctx = decide_list rest cab bid bobj ctx) := by
  refine ⟨rfl, sort_by_pairwise template_key tpls, fun p => filter_sort_by template_key tpls p,
    ?_, ?_⟩
  · intro t rest s h
    simp [decide_list, h]
  · intro t rest h
    simp [decide_list, h]

/-- Witness for C2, the spec scenario: priority 1's root condition fails, so
the engine falls through to priority 2, whose chain head matches with
`NOOP`; the final decision is `NOOP` and the priority-3 `DISABLE` template
is never consulted, whatever the original list order was. -/
theorem c2_witness :
    eval_template c2_t1 "cab" 1 bobj0 ctx0 = none ∧
    eval_template c2_t2 "cab" 1 bobj0 ctx0 = some "NOOP" ∧
    decide_list [c2_t2, c2_t3] "cab" 1 bobj0 ctx0 = "NOOP" ∧
    decide_action_for_banner [c2_t3, c2_t1, c2_t2] "cab" 1 bobj0 ctx0 = "NOOP" := by
  refine ⟨by decide, by decide, ?_, by decide⟩
  exact (c2_priority_order_first_match_terminal [] "cab" 1 bobj0 ctx0).2.2.2.1
    c2_t2 [c2_t3] "NOOP" (by decide)

/-- C3: the cost-priority shortcut.  If a `CONVERSION_COST` (`RESULT_COST`)
rule's metric comparison succeeds on its own for a window with conversions
(`goals > 0`), then a `CLICK_COST` rule in the same node is treated as
satisfied regardless of its own thresholds; in particular a `mode=ALL` node
holding that conversion-cost rule (itself fully satisfied) and any
`CLICK_COST` rule matches and returns its declared valid action. -/
theorem c3_cost_priority_shortcut (conv click : CostRule) (bid : Nat) (bobj : BannerObj)
    (ctx : Ctx) (stt : String)
    (hct : to_upper (conv.rtype.getD "") = "COST_RULE")
    (hcm : to_upper (conv.metric.getD "") = "RESULT_COST")
    (hres : (ctx.stats (conv.period.getD period_all_time) bid).goals > 0)
    (hcmp : op_compare (result_cost (ctx.stats (conv.period.getD period_all_time) bid))
        (to_upper (orD conv.op "EQ")) (conv.value.getD (conv.valueRub.getD 0)) = true)
    (hconv : eval_cost_rule conv bid ctx = true)
    (hkt : to_upper (click.rtype.getD "") = "COST_RULE")
    (hkm : to_upper (click.metric.getD "") = "CLICK_COST")
    (hst : stt = "DISABLE" ∨ stt = "ENABLE" ∨ stt = "NOOP") :
    eval_filter_node
      (.mk (some "FILTER") (some "ALL") [conv, click] []
        (some { atype := some "SET_STATE", state := some stt }) none .nil) bid bobj ctx
    = (stt, true) := by
  have hrc : result_cost_value_ok [conv, click] bid ctx = true := by
    rw [result_cost_value_ok]
    rw [if_pos ⟨hct, Or.inl hcm⟩]
    rw [if_pos ⟨hres, hcmp⟩]
  simp only [eval_filter_node]
  rw [if_neg (by decide : ¬(to_upper ((some "FILTER" : Option String).getD "") ≠ "FILTER"))]
  rw [if_neg (by simp : ¬(([] : List Cond) ≠ [] ∧ eval_conditions [] bid bobj ctx = false))]
  simp only [List.map_cons, List.map_nil, hrc, hct, hkt, hcm, hkm, hconv]
  have d1 : ¬(("RESULT_COST" : String) = "CLICK_COST" ∨ ("RESULT_COST" : String) = "CPC") := by
    decide
  have d3 : ¬(to_upper (orD (some "ALL") "ALL") = "ANY") := by decide
  have d4 : to_upper "SET_STATE" = "SET_STATE" := by decide
  rcases hst with h | h | h <;> subst h
  · have e : to_upper (orD (some "DISABLE") "NOOP") = "DISABLE" := by decide
    simp [d1, d3, d4, e, List.all_cons, List.all_nil, id]
  · have e : to_upper (orD (some "ENABLE") "NOOP") = "ENABLE" := by decide
    simp [d1, d3, d4, e, List.all_cons, List.all_nil, id]
  · have e : to_upper (orD (some "NOOP") "NOOP") = "NOOP" := by decide
    simp [d1, d3, d4, e, List.all_cons, List.all_nil, id]

/-- Witness for C3: on `ctx3` the click rule fails on its own, yet the
`mode=ALL` node with the satisfied conversion-cost rule and that click rule
still matches and yields its `DISABLE` action. -/
theorem c3_witness :
    eval_cost_rule click3 5 ctx3 = false ∧
    eval_filter_node (.mk (some "FILTER") (some "ALL") [conv3, click3] []
        (some { atype := some "SET_STATE", state := some "DISABLE" }) none .nil)
      5 bobj0 ctx3 = ("DISABLE", true) := by
  refine ⟨by decide, ?_⟩
  exact c3_cost_priority_shortcut conv3 click3 5 bobj0 ctx3 "DISABLE" (by decide) (by decide)
    (by decide) (by decide) (by decide) (by decide) (by decide) (Or.inl rfl)

/-- An unrecognized metric name is absent from the metric map. -/
theorem metric_value_unknown (s : Stats) (m : String)
    (h : m ∉ (["SPENT", "CLICKS", "RESULTS", "CLICK_COST", "RESULT_COST", "CPC", "CPA"] :
      List String)) : metric_value_from_stats s m = none := by
  simp only [List.mem_cons, List.not_mem_nil, or_false, not_or] at h
  obtain ⟨h1, h2, h3, h4, h5, h6, h7⟩ := h
  simp only [metric_value_from_stats]
  rw [if_neg h1, if_neg h2, if_neg h3, if_neg h4, if_neg h5, if_neg h6, if_neg h7]

/-- C4: fail-closed semantics of the evaluator: a condition list containing
an unrecognized condition type (or an `INCOME` condition with an unknown
mode) evaluates to `false`; `eval_cost_rule` fails on a non-`COST_RULE` type
and on an unknown metric name; `op_compare` is `false` for an unknown
operator. -/
theorem c4_fail_closed :
    (∀ (conds : List Cond) (c : Cond) (bid : Nat) (bobj : BannerObj) (ctx : Ctx),
       c ∈ conds →
       (to_upper (c.ctype.getD "") ∉ (["SPENT", "INCOME", "TARGET_ACTION"] : List String) ∨
        (to_upper (c.ctype.getD "") = "INCOME" ∧
         to_upper (orD c.mode "HAS") ∉ (["HAS", "EXISTS", "HAS_NOT", "NOT_HAS", "NOT",
           "NONE", "NO", "EMPTY", "ZERO", "COMPARE", "COMPARE_SPEND"] : List String))) →
       eval_conditions conds bid bobj ctx = false)
    ∧ (∀ (r : CostRule) (bid : Nat) (ctx : Ctx),
       to_upper (r.rtype.getD "") ≠ "COST_RULE" → eval_cost_rule r bid ctx = false)
    ∧ (∀ (r : CostRule) (bid : Nat) (ctx : Ctx),
       to_upper (r.metric.getD "") ∉ (["SPENT", "CLICKS", "RESULTS", "CLICK_COST",
         "RESULT_COST", "CPC", "CPA"] : List String) →
       eval_cost_rule r bid ctx = false)
    ∧ (∀ (l r : ℚ) (op : String),
       to_upper op ∉ (["LT", "LTE", "EQ", "GTE", "GT"] : List String) →
       op_compare l op r = false) := by
  refine ⟨?_, ?_, ?_, ?_⟩
  · intro conds c bid bobj ctx hmem hbad
    induction conds with
    | nil => simp at hmem
    | cons c0 cs ih =>
      rcases List.mem_cons.mp hmem with h0 | h0
      · subst h0
        rcases hbad with hb | hb
        · simp only [List.mem_cons, List.not_mem_nil, or_false, not_or] at hb
          obtain ⟨h1, h2, h3⟩ := hb
          simp only [eval_conditions]
          rw [if_neg h1, if_neg h2, if_neg h3]
        · obtain ⟨hinc, hmode⟩ := hb
          simp only [List.mem_cons, List.not_mem_nil, or_false, not_or] at hmode
          obtain ⟨m1, m2, m3, m4, m5, m6, m7, m8, m9, m10, m11⟩ := hmode
          simp only [eval_conditions]
          rw [hinc]
          rw [if_neg (by decide : ¬("INCOME" : String) = "SPENT")]
          rw [if_pos rfl]
          rw [if_neg (by tauto : ¬(to_upper (orD c.mode "HAS") = "HAS" ∨
                to_upper (orD c.mode "HAS") = "EXISTS"))]
          rw [if_neg (by tauto : ¬(to_upper (orD c.mode "HAS") = "HAS_NOT" ∨
                to_upper (orD c.mode "HAS") = "NOT_HAS" ∨
                to_upper (orD c.mode "HAS") = "NOT" ∨
                to_upper (orD c.mode "HAS") = "NONE" ∨
                to_upper (orD c.mode "HAS") = "NO" ∨
                to_upper (orD c.mode "HAS") = "EMPTY" ∨
                to_upper (orD c.mode "HAS") = "ZERO"))]
          rw [if_neg m10, if_neg m11]
      · have hrec : eval_conditions cs bid bobj ctx = false := ih h0
        simp only [eval_conditions]
        repeat' split
        all_goals first | rfl | exact hrec
  · intro r bid ctx h
    simp only [eval_cost_rule]
    rw [if_pos h]
  · intro r bid ctx h
    simp only [eval_cost_rule]
    split
    · rfl
    · split
      · rfl
      · rw [metric_value_unknown _ _ h]
  · intro l r op h
    simp only [List.mem_cons, List.not_mem_nil, or_false, not_or] at h
    obtain ⟨h1, h2, h3, h4, h5⟩ := h
    simp only [op_compare]
    rw [if_neg h1, if_neg h2, if_neg h3, if_neg h4, if_neg h5]

/-- Witness for C4: concrete malformed predicates all evaluate to false. -/
theorem c4_witness :
    eval_conditions [cond_unknown] 1 bobj0 ctx0 = false ∧
    eval_conditions [cond_pass, cond_badmode] 1 bobj0 ctx0 = false ∧
    eval_cost_rule rule_badtype 1 ctx0 = false ∧
    eval_cost_rule rule_badmetric 1 ctx0 = false ∧
    op_compare 3 "APPROX" 3 = false := by
  refine ⟨?_, ?_, ?_, ?_, ?_⟩
  · exact c4_fail_closed.1 [cond_unknown] cond_unknown 1 bobj0 ctx0 (by decide)
      (Or.inl (by decide))
  · exact c4_fail_closed.1 [cond_pass, cond_badmode] cond_badmode 1 bobj0 ctx0 (by decide)
      (Or.inr (by decide))
  · exact c4_fail_closed.2.1 rule_badtype 1 ctx0 (by decide)
  · exact c4_fail_closed.2.2.1 rule_badmetric 1 ctx0 (by decide)
  · exact c4_fail_closed.2.2.2 3 3 "APPROX" (by decide)

/-- C5: a `COST_RULE` with a recognized metric matches iff the window spend
reaches the `spentRub` gate and the metric comparison holds. -/
theorem c5_cost_rule_iff (r : CostRule) (bid : Nat) (ctx : Ctx) (actual : ℚ)
    (ht : to_upper (r.rtype.getD "") = "COST_RULE")
    (hm : metric_value_from_stats (ctx.stats (r.period.getD period_all_time) bid)
        (to_upper (r.metric.getD "")) = some actual) :
    eval_cost_rule r bid ctx = true ↔
      ((ctx.stats (r.period.getD period_all_time) bid).spent ≥ r.spentRub.getD 0 ∧
       op_compare actual (to_upper (orD r.op "EQ"))
         (r.value.getD (r.valueRub.getD 0)) = true) := by
  simp only [eval_cost_rule]
  rw [if_neg (by simp [ht] : ¬(to_upper (r.rtype.getD "") ≠ "COST_RULE"))]
  rw [hm]
  by_cases hs : (ctx.stats (r.period.getD period_all_time) bid).spent < r.spentRub.getD 0
  · rw [if_pos hs]
    constructor
    · intro hfalse
      exact absurd hfalse (by simp)
    · rintro ⟨hge, _⟩
      exact absurd hge (not_le.mpr hs)
  · rw [if_neg hs]
    have hge : (ctx.stats (r.period.getD period_all_time) bid).spent ≥ r.spentRub.getD 0 :=
      not_lt.mp hs
    constructor
    · intro h
      exact ⟨hge, h⟩
    · rintro ⟨_, h⟩
      exact h

/-- Witness for C5: on the spec scenario snapshot the rule matches (350 ≥ 300
spend gate and 350 ≥ 300 metric comparison). -/
theorem c5_witness :
    metric_value_from_stats (ctx5.stats (rule5.period.getD period_all_time) 9)
      (to_upper (rule5.metric.getD "")) = some 350 ∧
    eval_cost_rule rule5 9 ctx5 = true := by
  refine ⟨by decide, ?_⟩
  exact (c5_cost_rule_iff rule5 9 ctx5 350 (by decide) (by decide)).mpr ⟨by decide, by decide⟩

/-- Logging an external call touches neither ledger. -/
theorem excl_log_action (kind : String) (bid : Nat) (st : CabState) (h : excl st) :
    excl (log_action kind bid st) := by
  intro k
  simpa [log_action] using h k

/-- A successful disable preserves the exclusivity invariant. -/
theorem excl_apply_disable (cfg : RunCfg) (bid : Nat) (st : CabState) (h : excl st) :
    excl (apply_disable cfg bid st) := by
  intro k
  rintro ⟨hd, he⟩
  simp only [apply_disable] at hd he
  obtain ⟨hk, he2⟩ := memK_delK_imp k (toString bid) st.enabled he
  rcases memK_setK_imp k (toString bid) _ st.disabled hd with h1 | h2
  · exact hk h1
  · exact h k ⟨h2, he2⟩

/-- A successful enable preserves the exclusivity invariant. -/
theorem excl_apply_enable (cfg : RunCfg) (bid : Nat) (st : CabState) (h : excl st) :
    excl (apply_enable cfg bid st) := by
  intro k
  rintro ⟨hd, he⟩
  simp only [apply_enable] at hd he
  obtain ⟨hk, hd2⟩ := memK_delK_imp k (toString bid) st.disabled hd
  rcases memK_setK_imp k (toString bid) _ st.enabled he with h1 | h2
  · exact hk h1
  · exact h k ⟨hd2, h2⟩

/-- The DISABLE pass preserves the exclusivity invariant. -/
theorem excl_disable_loop (cfg : RunCfg) (ids : List Nat) :
    ∀ st : CabState, excl st → excl (disable_loop cfg ids st) := by
  induction ids with
  | nil =>
    intro st h
    simpa [disable_loop] using h
  | cons bid rest ih =>
    intro st h
    rw [disable_loop]
    split
    · exact ih _ h
    split
    · exact ih _ h
    split
    · exact ih _ h
    split
    · exact h
    split
    · exact ih _ (excl_apply_disable cfg bid _ (excl_log_action "disable" bid st h))
    · exact ih _ (excl_log_action "disable" bid st h)

/-- The ENABLE pass preserves the exclusivity invariant. -/
theorem excl_enable_loop (cfg : RunCfg) (ids : List Nat) :
    ∀ st : CabState, excl st → excl (enable_loop cfg ids st) := by
  induction ids with
  | nil =>
    intro st h
    simpa [enable_loop] using h
  | cons bid rest ih =>
    intro st h
    rw [enable_loop]
    split
    · exact ih _ h
    split
    · exact ih _ h
    split
    · exact ih _ h
    split
    · exact ih _ (excl_apply_enable cfg bid _ (excl_log_action "enable" bid st h))
    · exact ih _ (excl_log_action "enable" bid st h)

/-- C6: both ledger-application passes preserve the exclusivity invariant: a
disable inserts into the suppressed ledger and removes from the restored
ledger, an enable does the converse, so if no banner id was in both ledgers
before a run's passes, none is afterwards. -/
theorem c6_ledger_exclusive (cfg : RunCfg) (activeIds blockedIds : List Nat) (st : CabState)
    (h : excl st) :
    excl (disable_loop cfg activeIds st) ∧
    excl (enable_loop cfg blockedIds (disable_loop cfg activeIds st)) := by
  have h1 := excl_disable_loop cfg activeIds st h
  exact ⟨h1, excl_enable_loop cfg blockedIds _ h1⟩

/-- Witness for C6: disabling banner 2 moves it from the restored to the
suppressed ledger and the exclusivity invariant survives. -/
theorem c6_witness :
    excl st6 ∧
    excl (disable_loop cfg6 [2] st6) ∧
    (disable_loop cfg6 [2] st6).disabled = [("1", rec1), ("2", mk_record cfg6 2 "off")] ∧
    (disable_loop cfg6 [2] st6).enabled = [] := by
  have hexcl : excl st6 := by
    intro k hk
    obtain ⟨h1, h2⟩ := hk
    simp only [st6, memK, List.any_cons, List.any_nil, Bool.or_false] at h1 h2
    have e1 : ("1" : String) = k := by simpa using h1
    have e2 : ("2" : String) = k := by simpa using h2
    rw [← e1] at e2
    exact absurd e2 (by decide)
  exact ⟨hexcl, (c6_ledger_exclusive cfg6 [2] [] st6 hexcl).1, by decide, by decide⟩

/-- The DISABLE pass never pushes the counter beyond the run cap. -/
theorem disable_loop_count_le (cfg : RunCfg) (ids : List Nat) :
    ∀ st : CabState, st.count ≤ cfg.effectiveMax →
      (disable_loop cfg ids st).count ≤ cfg.effectiveMax := by
  induction ids with
  | nil =>
    intro st h
    simpa [disable_loop] using h
  | cons bid rest ih =>
    intro st h
    rw [disable_loop]
    split
    · exact ih _ h
    split
    · exact ih _ h
    split
    · exact ih _ h
    split
    · exact h
    split
    · apply ih
      simp only [apply_disable, log_action]
      rename_i hlt _
      omega
    · apply ih
      simpa [log_action] using h

/-- Once the counter has reached the cap, the DISABLE pass is inert: every
remaining candidate is skipped and the state is returned unchanged. -/
theorem disable_loop_capped (cfg : RunCfg) (ids : List Nat) :
    ∀ st : CabState, cfg.effectiveMax ≤ st.count → disable_loop cfg ids st = st := by
  induction ids with
  | nil =>
    intro st _
    rfl
  | cons bid rest ih =>
    intro st h
    rw [disable_loop]
    split
    · exact ih _ h
    split
    · exact ih _ h
    split
    · exact ih _ h
    rfl

/-- C7: the number of successful DISABLE actions in one run never exceeds the
run cap (the counter, starting below the cap, stays below it and the pass
stops at the cap, skipping the remaining candidates), and with the
`limit_disabled_banners_20` flag set the effective cap is bounded by the
configured `max_disables` (and by 20). -/
theorem c7_run_cap (cfg : RunCfg) (ids : List Nat) (st : CabState) :
    (st.count ≤ cfg.effectiveMax → (disable_loop cfg ids st).count ≤ cfg.effectiveMax)
    ∧ (cfg.effectiveMax ≤ st.count → disable_loop cfg ids st = st)
    ∧ (∀ m : Int, effective_max_disables true m ≤ m ∧ effective_max_disables true m ≤ 20) := by
  refine ⟨disable_loop_count_le cfg ids st, disable_loop_capped cfg ids st, ?_⟩
  intro m
  constructor
  · simp only [effective_max_disables, if_pos]
    exact min_le_left m 20
  · simp only [effective_max_disables, if_pos]
    exact min_le_right m 20

/-- Witness for C7, the spec scenario: cap 2 with three eligible candidates
1, 2, 3 — only 1 and 2 are suppressed and invoked; 3 is not acted upon. -/
theorem c7_witness :
    (disable_loop cfg7 [1, 2, 3] st_empty).count ≤ cfg7.effectiveMax ∧
    (disable_loop cfg7 [1, 2, 3] st_empty).count = 2 ∧
    memK "1" (disable_loop cfg7 [1, 2, 3] st_empty).disabled = true ∧
    memK "2" (disable_loop cfg7 [1, 2, 3] st_empty).disabled = true ∧
    memK "3" (disable_loop cfg7 [1, 2, 3] st_empty).disabled = false ∧
    (disable_loop cfg7 [1, 2, 3] st_empty).actions = [("disable", 1), ("disable", 2)] := by
  refine ⟨(c7_run_cap cfg7 [1, 2, 3] st_empty).1 (by decide), by decide, by decide, by decide,
    by decide, by decide⟩

/-- C8: when the configured allow-list resolves to the empty set, the whole
account run is a no-op — `process_cabinet` returns the initial state
untouched (so no disable/enable is invoked, and ledgers, history and the
notify state are unchanged) and dispatches no digest. -/
theorem c8_empty_whitelist_noop (cfg : RunCfg) (camp res direct activeIds blockedIds : List Nat)
    (st : CabState) (lastNotifyUtc : Option Int)
    (hcfg : cfg.whitelist = resolve_whitelist camp res direct)
    (hempty : resolve_whitelist camp res direct = some []) :
    process_cabinet cfg activeIds blockedIds st lastNotifyUtc = (st, lastNotifyUtc, false) := by
  rw [process_cabinet, if_pos (hcfg.trans hempty)]

/-- Witness for C8: one allow-listed campaign that resolves to no banners
(and no direct banner ids) halts the run before anything is touched. -/
theorem c8_witness :
    resolve_whitelist [5] [] [] = some [] ∧
    process_cabinet
      { cab := "c", templates := [c2_t3], ctx := ctx0, bobjOf := fun _ => bobj0,
        ignoreManual := false, whitelist := resolve_whitelist [5] [] [],
        blacklist := [], onlySpent5000 := false, effectiveMax := 5,
        disableOk := fun _ => true, enableOk := fun _ => true, nowUtc := 100,
        tgEnabled := true, hasToken := true, hasChat := true, everyMin := none }
      [1, 2] [3] st6 (some 7) = (st6, some 7, false) := by
  refine ⟨by decide, ?_⟩
  exact c8_empty_whitelist_noop _ [5] [] [] [1, 2] [3] st6 (some 7) rfl (by decide)

/-- C9: the notification tail updates the last-sent timestamp only when a
digest is actually dispatched with a non-empty deduplicated window: if the
set of history events strictly newer than the last send reduces to nothing,
the notify state is left untouched and nothing is sent; conversely, whenever
the stored timestamp changes, a digest was dispatched and the deduplicated
window was non-empty. -/
theorem c9_notify_state_only_on_dispatch (cfg : RunCfg) (hist : List BannerRecord)
    (lastNotifyUtc : Option Int) :
    (reduce_latest_per_banner (read_history_events_since hist lastNotifyUtc) = [] →
      notify_phase cfg hist lastNotifyUtc = (lastNotifyUtc, false))
    ∧ ((notify_phase cfg hist lastNotifyUtc).1 ≠ lastNotifyUtc →
      (notify_phase cfg hist lastNotifyUtc).2 = true ∧
      reduce_latest_per_banner (read_history_events_since hist lastNotifyUtc) ≠ []) := by
  constructor
  · intro hempty
    rw [notify_phase]
    split
    · split
      · rfl
      · rfl
    · rfl
  · intro hchanged
    rw [notify_phase] at hchanged ⊢
    split at hchanged
    · split at hchanged
      · split at hchanged
        · exact absurd rfl hchanged
        · rename_i henabled hdue hne
          simp only [if_neg hne]
          rw [if_pos henabled, if_pos hdue]
          exact ⟨rfl, hne⟩
      · exact absurd rfl hchanged
    · exact absurd rfl hchanged

/-- Witness for C9: with one history event older than the last send, the
window is empty and the notify state survives unchanged even though
notifications are wired up and due. -/
theorem c9_witness :
    reduce_latest_per_banner (read_history_events_since [rec9] (some 50)) = [] ∧
    notify_phase
      { cab := "c", templates := [], ctx := ctx0, bobjOf := fun _ => bobj0,
        ignoreManual := false, whitelist := none, blacklist := [],
        onlySpent5000 := false, effectiveMax := 5, disableOk := fun _ => true,
        enableOk := fun _ => true, nowUtc := 100, tgEnabled := true, hasToken := true,
        hasChat := true, everyMin := some 1 }
      [rec9] (some 50) = (some 50, false) := by
  refine ⟨by decide, ?_⟩
  exact (c9_notify_state_only_on_dispatch _ [rec9] (some 50)).1 (by decide)

/-- C10: for a positive notification interval, a stored last-sent timestamp
lying strictly more than one minute in the future of the current UTC time
makes the digest due immediately. -/
theorem c10_future_last_sent_is_due (m l nowUtc : Int) (hm : 0 < m) (hl : nowUtc + 60 < l) :
    is_due_to_send (some l) (some m) nowUtc = true := by
  rw [is_due_to_send]
  rw [if_neg (by omega : ¬(m ≤ 0))]
  rw [if_pos (by omega : l > nowUtc + 60)]

/-- Witness for C10: interval 30 minutes, last-sent 1000 seconds in the
future of now = 0 — the digest is due at once. -/
theorem c10_witness :
    (0 : Int) < 30 ∧ (0 : Int) + 60 < 1000 ∧ is_due_to_send (some 1000) (some 30) 0 = true :=
  ⟨by decide, by decide, c10_future_last_sent_is_due 30 1000 0 (by decide) (by decide)⟩
